import Mathlib

/-
Formal model of the EchoOS command executor (`src/modules/executor.py`).

The executor is embedded shallowly: every operating-system interaction
(subprocess spawns, process signals, filesystem operations, browser opens,
text-to-speech feedback) is recorded as an `Effect` in an output trace
instead of being performed, and the ambient machine state that the Python
code reads (platform string, existing files, live processes, current
volume, registry contents, whether an OS call would throw) is collected in
an `Env` record.  Python exceptions that the source can raise and catch are
made explicit with the `Outcome` type: a handler yields `Outcome.exn e`
exactly where the Python handler would let an exception escape to
`Executor.execute`'s try/except.

Notes on fidelity:
 * `logger.*` calls are omitted from the trace except in the `list_files`
   branch, where the spec distinguishes the log channel from the spoken
   feedback channel.
 * `psutil` metric reads (battery, disk, memory, cpu, network) are modelled
   as non-throwing reads of `Env` fields; their `except` branches in the
   source are unreachable under that idealisation and no claim depends on
   them.
 * float formatting in system-info log lines is abstracted away (only the
   integer percentages that reach the spoken channel are kept).
 * `int(result.stdout)` in the macOS volume query is assumed to parse; the
   query itself can still fail (`Env.volQueryFails` models the
   `subprocess.CalledProcessError` branch).
-/

namespace EchoOS

/-! ## String helpers

Python's `needle in haystack` (substring test), `str.startswith`,
`str.lower`, `str.replace` and `'/'.split` are re-implemented structurally
over `String.data` so that all of them reduce inside the kernel. -/

/-- Is `ns` a prefix of `hs`? (list-of-characters version) -/
def isPrefixOfL : List Char → List Char → Bool
  | [], _ => true
  | _ :: _, [] => false
  | n :: ns, h :: hs => n = h && isPrefixOfL ns hs

/-- Does `ns` occur as a contiguous sublist of `hs`? -/
def isSubL (ns : List Char) : List Char → Bool
  | [] => isPrefixOfL ns []
  | h :: hs => isPrefixOfL ns (h :: hs) || isSubL ns hs

/-- Python `needle in hay` on strings (substring containment; the empty
needle is contained in everything). -/
def strContains (hay needle : String) : Bool :=
  isSubL needle.data hay.data

/-- Python `s.startswith(pre)`. -/
def strStartsWith (s pre : String) : Bool :=
  isPrefixOfL pre.data s.data

/-- Python `c in s` for a single character `c`. -/
def strContainsChar (s : String) (c : Char) : Bool :=
  s.data.contains c

/-- Python `c.lower()` for one character (ASCII, as `str.lower` acts on the
identifiers appearing in this program). -/
def charLower (c : Char) : Char :=
  if 'A' ≤ c && c ≤ 'Z' then Char.ofNat (c.toNat + 32) else c

/-- Python `s.lower()`. -/
def strLower (s : String) : String :=
  ⟨s.data.map charLower⟩

/-- Python `s.replace('_', ' ')`. -/
def underscoreToSpace (s : String) : String :=
  ⟨s.data.map (fun c => if c = '_' then ' ' else c)⟩

/-- Python `s.replace(' ', '+')` (query encoding in the web handler). -/
def spaceToPlus (s : String) : String :=
  ⟨s.data.map (fun c => if c = ' ' then '+' else c)⟩

/-- Python `', '.join l`. -/
def joinComma : List String → String
  | [] => ""
  | [x] => x
  | x :: xs => x ++ ", " ++ joinComma xs

/-- Python `url.split('/')[-1]`: the characters after the last `'/'`
(the whole string when no `'/'` occurs). -/
def lastSegment (s : String) : List Char :=
  s.data.foldl (fun acc c => if c = '/' then [] else acc ++ [c]) []

/-! ## Data model -/

/-- One recorded side effect of the executor.  Each constructor stands for
one concrete OS/feedback call site in `executor.py`. -/
inductive Effect where
  /-- `subprocess.run(args, check=False)` -/
  | run (args : List String)
  /-- `subprocess.Popen(args)` -/
  | popen (args : List String)
  /-- `nircmd changesysvolume <delta>` (Windows; delta on the 0..65535 scale) -/
  | changeSysVolume (delta : Int)
  /-- `osascript -e "set volume output volume <v>"` (macOS absolute level) -/
  | setVolume (v : Int)
  /-- `nircmd mutesysvolume 1` / `osascript ... output muted true` -/
  | muteVolume
  /-- `proc.terminate()` — a graceful SIGTERM, the source never calls `kill()` -/
  | terminate (pname : String)
  /-- `Path(f).touch()` -/
  | touch (f : String)
  /-- `Path(f).unlink()` -/
  | unlink (f : String)
  /-- `webbrowser.open(url)` -/
  | openBrowser (url : String)
  /-- `self.tts.speak(msg)` -/
  | speak (msg : String)
  /-- a call of `_validate_filename(f)` returning `ok` -/
  | validate (f : String) (ok : Bool)
  /-- `logger.info(msg)` (kept only where a claim talks about the log channel) -/
  | log (msg : String)
  deriving Repr, DecidableEq

/-- The Python exceptions that can escape a handler to `execute`'s
catch-all.  `attributeError` is `'NoneType' object has no attribute
'lower'` from `proc.info['name'].lower()` when a process reports no name
(not in the tuple caught inside the close loop). -/
inductive PyExn where
  | attributeError
  | other
  deriving Repr, DecidableEq

/-- Result of running one handler: a normal boolean return, or an escaped
Python exception. -/
inductive Outcome where
  | ok (b : Bool)
  | exn (e : PyExn)
  deriving Repr, DecidableEq

/-- A live process as seen through `psutil.process_iter(['name'])`:
`name` is `proc.info['name']` (may be `None`), `denied` models
`proc.terminate()` raising `psutil.AccessDenied` / `psutil.NoSuchProcess`
(the tuple caught and ignored inside the close loop). -/
structure Proc where
  name : Option String
  denied : Bool
  deriving Repr, DecidableEq

/-- The `parameters` dictionary of a parsed command; absent keys are
`none`. -/
structure Params where
  app_name : Option String := none
  filename : Option String := none
  url : Option String := none
  query : Option String := none
  amount : Option Int := none
  deriving Repr, DecidableEq

/-- A parsed command dictionary: `command.get('category')`,
`command.get('intent')` may each be absent, `parameters` defaults to the
empty mapping. -/
structure Command where
  category : Option String := none
  intent : Option String := none
  parameters : Params := {}
  deriving Repr, DecidableEq

/-- The argument of `Executor.execute`: Python `None`, the empty (falsy)
dict, or a non-empty command dict. -/
inductive CmdInput where
  | null
  | emptyDict
  | cmd (c : Command)
  deriving Repr, DecidableEq

/-- The ambient machine state read by the executor, plus oracles for which
OS calls would throw. -/
structure Env where
  /-- `platform.system()`, cached as `self.platform` -/
  platform : String
  /-- is a TTS instance attached (`self.tts` truthy)? -/
  tts : Bool
  /-- `self.app_paths`: the loaded registry mapping (lowercased name, path) -/
  appPaths : List (String × String)
  /-- the set of paths for which `Path(p).exists()` holds -/
  fs : List String
  /-- names of the regular files in the current working directory -/
  cwdFiles : List String
  /-- `psutil.process_iter(['name'])` -/
  processes : List Proc
  /-- macOS `output volume of (get volume settings)` -/
  currentVolume : Int
  /-- the macOS volume query raises `subprocess.CalledProcessError` -/
  volQueryFails : Bool
  /-- `subprocess.Popen` raises (missing executable, permissions) -/
  popenFails : Bool
  /-- `webbrowser.open` raises -/
  webFail : Bool
  /-- `Path.touch` / `Path.unlink` / `Path('.').iterdir` raises -/
  fsFail : Bool
  /-- `platform.release()` -/
  osRelease : String
  /-- `psutil.sensors_battery()`: `(percent, power_plugged)` or no battery -/
  battery : Option (Int × Bool)
  diskPercent : Int
  memPercent : Int
  cpuPercent : Int
  /-- keys of `psutil.net_if_addrs()` -/
  netIfaces : List String
  deriving Repr, DecidableEq

/-- `if self.tts: self.tts.speak(msg)`. -/
def speakIf (tts : Bool) (msg : String) : List Effect :=
  if tts then [Effect.speak msg] else []

/-! ## `_validate_filename` (executor.py lines 53-76) -/

/-- The shell metacharacters checked at executor.py line 72:
`['|', '&', ';', '\x60', '$', '(', ')']` (the fourth is the backquote). -/
def badChars : List Char :=
  ['|', '&', ';', Char.ofNat 96, '$', '(', ')']

/-- `Executor._validate_filename`:
rejects falsy (empty) filenames, then directory traversal (`'..' in
filename or filename.startswith('/')`), then the shell metacharacters. -/
def validate_filename (filename : String) : Bool :=
  if filename = "" then false
  else if strContains filename ".." || strStartsWith filename "/" then false
  else if badChars.any (fun c => strContainsChar filename c) then false
  else true

/-! ## `_load_app_paths` (executor.py lines 39-51) and registry lookup -/

/-- Python-dict construction from the comprehension
`{app['name'].lower(): app['path'] for app in data.get('apps', [])}`:
later entries overwrite earlier ones, which for an association list means
lookups must prefer the *last* binding. -/
def load_app_paths (apps : List (String × String)) : List (String × String) :=
  apps.map (fun e => (strLower e.1, e.2))

/-- Lookup in a Python dict represented as an insertion-ordered association
list with last-binding-wins semantics. -/
def dictLookup (d : List (String × String)) (k : String) : Option String :=
  (d.reverse.find? (fun e => e.1 == k)).map (fun e => e.2)

/-- How the executor queries the registry: the query name is lowercased
(`app_name = params.get('app_name', '').lower()`, line 212) before the
dict lookup at line 221. -/
def appLookup (d : List (String × String)) (name : String) : Option String :=
  dictLookup d (strLower name)

/-! ## `_execute_system` (executor.py lines 125-208)

Each power action speaks first (shutdown/restart block on the speech) and
then issues one platform-specific `subprocess.run(..., check=False)` call;
`check=False` means a failing utility does not raise, so the surrounding
`except` branches fire only when the binary itself is missing — modelled as
non-throwing here, no claim depends on them.  On Linux `lock` tries three
commands in order and `break`s after the first `run` that returns; the
first is modelled as the one issued. -/

def powerRun (plat : String) (win dar lin : List String) : List Effect :=
  if plat = "Windows" then [Effect.run win]
  else if plat = "Darwin" then [Effect.run dar]
  else [Effect.run lin]

def execute_system (env : Env) (intent : Option String) : Outcome × List Effect :=
  if intent = some "shutdown" then
    (.ok true, speakIf env.tts "Shutting down system" ++
      powerRun env.platform ["shutdown", "/s", "/t", "1"]
        ["osascript", "-e", "tell app \"System Events\" to shut down"]
        ["systemctl", "poweroff"])
  else if intent = some "restart" then
    (.ok true, speakIf env.tts "Restarting system" ++
      powerRun env.platform ["shutdown", "/r", "/t", "1"]
        ["osascript", "-e", "tell app \"System Events\" to restart"]
        ["systemctl", "reboot"])
  else if intent = some "sleep" then
    (.ok true, speakIf env.tts "Putting system to sleep" ++
      powerRun env.platform ["rundll32.exe", "powrprof.dll,SetSuspendState", "0", "1", "0"]
        ["pmset", "sleepnow"]
        ["systemctl", "suspend"])
  else if intent = some "lock" then
    (.ok true, speakIf env.tts "Locking screen" ++
      powerRun env.platform ["rundll32.exe", "user32.dll,LockWorkStation"]
        ["/System/Library/CoreServices/Menu Extras/User.menu/Contents/Resources/CGSession", "-suspend"]
        ["gnome-screensaver-command", "-l"])
  else (.ok false, [])

/-! ## `_execute_application` (executor.py lines 210-292) -/

/-- The static `common_apps` table (lines 238-245), in insertion order:
`(key, windows command, macOS app, linux command)`. -/
def commonApps : List (String × String × String × String) :=
  [("chrome", "chrome", "Google Chrome", "google-chrome"),
   ("firefox", "firefox", "Firefox", "firefox"),
   ("edge", "msedge", "Microsoft Edge", "microsoft-edge"),
   ("notepad", "notepad", "TextEdit", "gedit"),
   ("calculator", "calc", "Calculator", "gnome-calculator"),
   ("terminal", "cmd", "Terminal", "gnome-terminal")]

/-- Spawning a registry path (lines 224-229): Windows `Popen([path])`,
macOS `Popen(['open', '-a', path])`, otherwise `Popen([path])`. -/
def openViaPath (plat path : String) : List Effect :=
  if plat = "Windows" then [Effect.popen [path]]
  else if plat = "Darwin" then [Effect.popen ["open", "-a", path]]
  else [Effect.popen [path]]

/-- The `for key, apps in common_apps.items()` loop (lines 247-261): a key
matches when `app_name in key or key in app_name`; a raising `Popen` is
logged and the loop continues with the next key; the first successful
spawn speaks and returns `True`. -/
def tryCommonApps (env : Env) (a : String) :
    List (String × String × String × String) → Bool × List Effect
  | [] => (false, speakIf env.tts ("Could not find " ++ a))
  | (key, w, m, l) :: rest =>
    if strContains key a || strContains a key then
      if env.popenFails then tryCommonApps env a rest
      else
        let eff :=
          if env.platform = "Windows" then [Effect.popen [w]]
          else if env.platform = "Darwin" then [Effect.popen ["open", "-a", m]]
          else [Effect.popen [l]]
        (true, eff ++ speakIf env.tts ("Opening " ++ a))
    else tryCommonApps env a rest

/-- The close loop (lines 274-281).  For each process:
`proc.info['name'].lower()` raises `AttributeError` when the name is
`None` (that exception is *not* in the caught `(NoSuchProcess,
AccessDenied)` tuple and escapes the loop, abandoning `killed`); a
matching process whose `terminate()` raises is skipped silently and does
not set `killed`.  Returns (escaped exception, killed flag, trace). -/
def closeLoop (a : String) : List Proc → Option PyExn × Bool × List Effect
  | [] => (none, false, [])
  | pr :: rest =>
    match pr.name with
    | none => (some .attributeError, false, [])
    | some n =>
      if strContains (strLower n) a then
        if pr.denied then closeLoop a rest
        else
          let r := closeLoop a rest
          (r.1, true, Effect.terminate n :: r.2.2)
      else closeLoop a rest

def execute_application (env : Env) (intent : Option String) (p : Params) :
    Outcome × List Effect :=
  let a := strLower (p.app_name.getD "")
  if intent = some "open" then
    if a = "" then (.ok false, speakIf env.tts "Please specify application name")
    else
      match dictLookup env.appPaths a with
      | some path =>
        if env.popenFails then
          let r := tryCommonApps env a commonApps
          (.ok r.1, r.2)
        else (.ok true, openViaPath env.platform path ++ speakIf env.tts ("Opening " ++ a))
      | none =>
        let r := tryCommonApps env a commonApps
        (.ok r.1, r.2)
  else if intent = some "close" then
    if a = "" then (.ok false, speakIf env.tts "Please specify application name")
    else
      match closeLoop a env.processes with
      | (some e, _, effs) => (.exn e, effs)
      | (none, killed, effs) =>
        if killed then (.ok true, effs ++ speakIf env.tts ("Closed " ++ a))
        else (.ok false, effs ++ speakIf env.tts (a ++ " is not running"))
  else (.ok false, [])

/-! ## `_execute_file` (executor.py lines 294-391)

The filename is read with default `''` and passed through
`_validate_filename` before the intent is inspected; the validation call
itself is recorded as an `Effect.validate` event so that theorems can talk
about whether and when validation ran. -/

/-- Opening an existing file with the platform default handler
(lines 317-322). -/
def openFileEffect (plat f : String) : Effect :=
  if plat = "Windows" then Effect.popen ["start", "", f]
  else if plat = "Darwin" then Effect.popen ["open", f]
  else Effect.popen ["xdg-open", f]

def execute_file (env : Env) (intent : Option String) (p : Params) :
    Outcome × List Effect :=
  let filename := p.filename.getD ""
  if validate_filename filename then
    let pre := [Effect.validate filename true]
    if intent = some "open_file" then
      if filename = "" then (.ok false, pre ++ speakIf env.tts "Please specify filename")
      else if !(env.fs.contains filename) then
        (.ok false, pre ++ speakIf env.tts "File not found")
      else if env.popenFails then
        (.ok false, pre ++ speakIf env.tts "Could not open file")
      else
        (.ok true, pre ++ [openFileEffect env.platform filename] ++
          speakIf env.tts ("Opening " ++ filename))
    else if intent = some "create_file" then
      if filename = "" then (.ok false, pre ++ speakIf env.tts "Please specify filename")
      else if env.fs.contains filename then
        (.ok false, pre ++ speakIf env.tts "File already exists")
      else if env.fsFail then
        (.ok false, pre ++ speakIf env.tts "Could not create file")
      else
        (.ok true, pre ++ [Effect.touch filename] ++
          speakIf env.tts ("Created " ++ filename))
    else if intent = some "delete_file" then
      if filename = "" then (.ok false, pre ++ speakIf env.tts "Please specify filename")
      else if !(env.fs.contains filename) then
        (.ok false, pre ++ speakIf env.tts "File not found")
      else if env.fsFail then
        (.ok false, pre ++ speakIf env.tts "Could not delete file")
      else
        (.ok true, pre ++ [Effect.unlink filename] ++
          speakIf env.tts ("Deleted " ++ filename))
    else if intent = some "list_files" then
      if env.fsFail then (.ok false, pre)
      else
        (.ok true, pre ++
          speakIf env.tts ("Found " ++ toString env.cwdFiles.length ++ " files") ++
          [Effect.log ("Files: " ++ joinComma (env.cwdFiles.take 10))])
    else (.ok false, pre)
  else
    (.ok false, Effect.validate filename false :: speakIf env.tts "Invalid filename")

/-! ## `_execute_web` (executor.py lines 393-455) -/

/-- URL normalization for `open_website` (lines 402-408): prefix
`https://` when no scheme, append `.com` when the last `/`-segment has no
dot. -/
def normalizeUrl (url : String) : String :=
  let url :=
    if strStartsWith url "http://" || strStartsWith url "https://" then url
    else "https://" ++ url
  if (lastSegment url).contains '.' then url else url ++ ".com"

def execute_web (env : Env) (intent : Option String) (p : Params) :
    Outcome × List Effect :=
  if intent = some "open_website" then
    let url := p.url.getD ""
    if url = "" then (.ok false, speakIf env.tts "Please specify website")
    else
      let url := normalizeUrl url
      if env.webFail then (.ok false, speakIf env.tts "Could not open website")
      else (.ok true, [Effect.openBrowser url] ++ speakIf env.tts ("Opening " ++ url))
  else if intent = some "search_google" then
    let q := p.query.getD ""
    if q = "" then (.ok false, speakIf env.tts "Please specify search query")
    else
      let url := "https://www.google.com/search?q=" ++ spaceToPlus q
      if env.webFail then (.ok false, [])
      else (.ok true, [Effect.openBrowser url] ++ speakIf env.tts ("Searching for " ++ q))
  else if intent = some "search_youtube" then
    let q := p.query.getD ""
    if q = "" then (.ok false, speakIf env.tts "Please specify search query")
    else
      let url := "https://www.youtube.com/results?search_query=" ++ spaceToPlus q
      if env.webFail then (.ok false, [])
      else
        (.ok true, [Effect.openBrowser url] ++
          speakIf env.tts ("Searching YouTube for " ++ q))
  else (.ok false, [])

/-! ## `_execute_system_info` (executor.py lines 457-549) -/

def execute_system_info (env : Env) (intent : Option String) :
    Outcome × List Effect :=
  if intent = some "system_info" then
    (.ok true, speakIf env.tts ("System: " ++ env.platform ++ " " ++ env.osRelease))
  else if intent = some "battery" then
    match env.battery with
    | some pb =>
      (.ok true, speakIf env.tts ("Battery at " ++ toString pb.1 ++ " percent, " ++
        (if pb.2 then "plugged in" else "on battery")))
    | none => (.ok false, speakIf env.tts "No battery detected")
  else if intent = some "disk_space" then
    (.ok true, speakIf env.tts ("Disk is " ++ toString env.diskPercent ++ " percent full"))
  else if intent = some "memory" then
    (.ok true, speakIf env.tts ("Memory is " ++ toString env.memPercent ++ " percent used"))
  else if intent = some "cpu" then
    (.ok true, speakIf env.tts ("CPU usage is " ++ toString env.cpuPercent ++ " percent"))
  else if intent = some "network" then
    if env.netIfaces.length > 0 then (.ok true, speakIf env.tts "Network is connected")
    else (.ok false, speakIf env.tts "No network connection")
  else (.ok false, [])

/-! ## `_execute_volume` (executor.py lines 551-592)

Structure of the source: one outer try. Inside, a Windows branch (nircmd
deltas, no clamping in this code), a Darwin branch (query current volume —
`CalledProcessError` is caught by the *inner* except which returns `False`
without speaking — then set a clamped absolute level), and **no** branch
for any other platform.  All platforms then fall through to
`speak(f"Volume {intent.replace('_', ' ')}")` and `return True`.  When
`intent` is `None` that f-string raises `AttributeError`, which the outer
except converts to `speak("Volume control not available")` and `False` —
but only when a TTS is attached, since the f-string is the argument of the
guarded `speak` call. -/

def volumeTail (env : Env) (intent : Option String) (effs : List Effect) :
    Outcome × List Effect :=
  match intent with
  | some i => (.ok true, effs ++ speakIf env.tts ("Volume " ++ underscoreToSpace i))
  | none =>
    if env.tts then (.ok false, effs ++ [Effect.speak "Volume control not available"])
    else (.ok true, effs)

def execute_volume (env : Env) (intent : Option String) (p : Params) :
    Outcome × List Effect :=
  let amount := p.amount.getD 10
  if env.platform = "Windows" then
    let effs :=
      if intent = some "volume_up" then [Effect.changeSysVolume (amount * 655)]
      else if intent = some "volume_down" then [Effect.changeSysVolume (-(amount * 655))]
      else if intent = some "mute" then [Effect.muteVolume]
      else []
    volumeTail env intent effs
  else if env.platform = "Darwin" then
    if env.volQueryFails then (.ok false, [])
    else
      let cur := env.currentVolume
      let effs :=
        if intent = some "volume_up" then [Effect.setVolume (min 100 (cur + amount))]
        else if intent = some "volume_down" then [Effect.setVolume (max 0 (cur - amount))]
        else if intent = some "mute" then [Effect.muteVolume]
        else []
      volumeTail env intent effs
  else
    volumeTail env intent []

/-! ## `_execute_control` (executor.py lines 594-607) -/

def execute_control (env : Env) (intent : Option String) : Outcome × List Effect :=
  if intent = some "stop_listening" then (.ok true, speakIf env.tts "Stopping")
  else if intent = some "wake_up" then (.ok true, speakIf env.tts "I'm listening")
  else (.ok false, [])

/-! ## `Executor.execute` (executor.py lines 78-123) -/

/-- The category if/elif chain (lines 99-117). -/
def dispatch (env : Env) (c : Command) : Outcome × List Effect :=
  if c.category = some "system" then execute_system env c.intent
  else if c.category = some "application" then execute_application env c.intent c.parameters
  else if c.category = some "file" then execute_file env c.intent c.parameters
  else if c.category = some "web" then execute_web env c.intent c.parameters
  else if c.category = some "system_info" then execute_system_info env c.intent
  else if c.category = some "volume" then execute_volume env c.intent c.parameters
  else if c.category = some "control" then execute_control env c.intent
  else (.ok false, speakIf env.tts "Unknown command category")

/-- `Executor.execute`: falsy input returns `False` immediately; otherwise
the dispatch runs under the catch-all `except Exception`, which converts
any escaped exception into `speak("Command execution failed")` plus
`False`. -/
def execute (env : Env) (input : CmdInput) : Outcome × List Effect :=
  match input with
  | .null => (.ok false, [])
  | .emptyDict => (.ok false, [])
  | .cmd c =>
    match dispatch env c with
    | (.ok b, effs) => (.ok b, effs)
    | (.exn _, effs) => (.ok false, effs ++ speakIf env.tts "Command execution failed")

/-! ## Trace observers used by the theorems -/

/-- Effects that reach the operating system (anything except feedback,
validation and logging). -/
def isOSCall : Effect → Bool
  | .run _ => true
  | .popen _ => true
  | .changeSysVolume _ => true
  | .setVolume _ => true
  | .muteVolume => true
  | .terminate _ => true
  | .touch _ => true
  | .unlink _ => true
  | .openBrowser _ => true
  | .speak _ => false
  | .validate _ _ => false
  | .log _ => false

def hasOSCall (effs : List Effect) : Bool := effs.any isOSCall

def isValidateEvent : Effect → Bool
  | .validate _ _ => true
  | _ => false

def hasValidate (effs : List Effect) : Bool := effs.any isValidateEvent

/-- Replay the filesystem effects of a trace onto a file set. -/
def applyFs : List Effect → List String → List String
  | [], fs => fs
  | Effect.touch f :: r, fs => applyFs r (fs ++ [f])
  | Effect.unlink f :: r, fs => applyFs r (fs.erase f)
  | _ :: r, fs => applyFs r fs

/-- A process both matches `app_name` (substring of its lowercased name)
and can actually be terminated (no `AccessDenied`). -/
def procMatches (a : String) (pr : Proc) : Bool :=
  match pr.name with
  | some n => strContains (strLower n) a && !pr.denied
  | none => false

/-! ## Concrete inputs used by witnesses and counterexamples -/

/-- A plain Linux host with a TTS attached, nothing interesting installed
and no OS call failing. -/
def baseEnv : Env :=
  { platform := "Linux", tts := true, appPaths := [], fs := [], cwdFiles := [],
    processes := [], currentVolume := 50, volQueryFails := false,
    popenFails := false, webFail := false, fsFail := false, osRelease := "6.1",
    battery := none, diskPercent := 40, memPercent := 35, cpuPercent := 12,
    netIfaces := ["eth0"] }

/-- A web command whose handler performs an OS call with no validator pass. -/
def cmdC2 : Command :=
  { category := some "web", intent := some "open_website",
    parameters := { url := some "example.org" } }

def envC4 : Env := { baseEnv with platform := "Darwin", tts := false }

/-- `volume_up` with a large negative delta. -/
def cmdC4 : Command :=
  { category := some "volume", intent := some "volume_up",
    parameters := { amount := some (-200) } }

def envC4w : Env :=
  { baseEnv with platform := "Darwin", tts := false, currentVolume := 30 }

def cmdC5 : Command := { category := some "volume", intent := some "volume_up" }

def envC6 : Env := baseEnv

/-- One live process named "chrome" whose `terminate()` raises
`psutil.AccessDenied`. -/
def envC7 : Env := { baseEnv with processes := [⟨some "chrome", true⟩] }

def pC7 : Params := { app_name := some "chrome" }

def envC7w : Env := { baseEnv with processes := [⟨some "Firefox", false⟩] }

def pC7w : Params := { app_name := some "Fire" }

def envC8 : Env := { baseEnv with cwdFiles := ["a.txt", "b.txt"] }

/-- `file.list_files` with an empty parameter mapping (the intent takes no
filename). -/
def cmdC8 : Command := { category := some "file", intent := some "list_files" }

/-- An App Registry file content: two entries with distinct lowercased
names. -/
def appsC9 : List (String × String) :=
  [("Chrome", "/usr/bin/google-chrome"), ("Code", "/usr/bin/code")]

/-! ## General helper lemmas -/

lemma dispatch_file (env : Env) (i : Option String) (p : Params) :
    dispatch env ⟨some "file", i, p⟩ = execute_file env i p := rfl

lemma dispatch_volume (env : Env) (i : Option String) (p : Params) :
    dispatch env ⟨some "volume", i, p⟩ = execute_volume env i p := rfl

lemma dispatch_application (env : Env) (i : Option String) (p : Params) :
    dispatch env ⟨some "application", i, p⟩ = execute_application env i p := rfl

/-- The file handler returns normally on every input: nothing inside it
escapes to the catch-all. -/
lemma execute_file_no_exn (env : Env) (i : Option String) (p : Params) :
    ∃ b effs, execute_file env i p = (.ok b, effs) := by
  unfold execute_file
  dsimp only
  repeat' split
  all_goals exact ⟨_, _, rfl⟩

/-- The volume handler returns normally on every input (the inner excepts
of the source convert all its failures before the handler boundary). -/
lemma execute_volume_no_exn (env : Env) (i : Option String) (p : Params) :
    ∃ b effs, execute_volume env i p = (.ok b, effs) := by
  unfold execute_volume volumeTail
  dsimp only
  repeat' split
  all_goals exact ⟨_, _, rfl⟩

/-- When the dispatched handler returns normally, `execute` passes its
result through unchanged. -/
lemma execute_eq_of_ok {env : Env} {c : Command} {b : Bool} {effs : List Effect}
    (h : dispatch env c = (.ok b, effs)) :
    execute env (.cmd c) = (.ok b, effs) := by
  simp [execute, h]

lemma execute_file_cmd (env : Env) (i : Option String) (p : Params) :
    execute env (.cmd ⟨some "file", i, p⟩) = execute_file env i p := by
  obtain ⟨b, effs, h⟩ := execute_file_no_exn env i p
  rw [show execute_file env i p = (Outcome.ok b, effs) from h]
  exact execute_eq_of_ok (by rw [dispatch_file, h])

lemma execute_volume_cmd (env : Env) (i : Option String) (p : Params) :
    execute env (.cmd ⟨some "volume", i, p⟩) = execute_volume env i p := by
  obtain ⟨b, effs, h⟩ := execute_volume_no_exn env i p
  rw [show execute_volume env i p = (Outcome.ok b, effs) from h]
  exact execute_eq_of_ok (by rw [dispatch_volume, h])

/-- Whatever volume effects the platform branch produced, the common tail
only appends feedback: any `setVolume` in the result was already in `effs`. -/
lemma setVolume_mem_volumeTail {env : Env} {i : Option String} {effs : List Effect} {v : Int}
    (h : Effect.setVolume v ∈ (volumeTail env i effs).2) : Effect.setVolume v ∈ effs := by
  cases i <;> cases ht : env.tts <;> simp_all [volumeTail, speakIf]

/-- The only absolute volume levels the volume handler ever sets are the
two clamped macOS expressions. -/
lemma setVolume_mem_execute_volume {env : Env} {i : Option String} {p : Params} {v : Int}
    (h : Effect.setVolume v ∈ (execute_volume env i p).2) :
    v = min 100 (env.currentVolume + p.amount.getD 10) ∨
    v = max 0 (env.currentVolume - p.amount.getD 10) := by
  unfold execute_volume at h
  dsimp only at h
  split at h
  case isTrue =>
    have h' := setVolume_mem_volumeTail h
    repeat' split at h'
    all_goals simp_all
  case isFalse =>
    split at h
    case isTrue =>
      split at h
      case isTrue => simp_all
      case isFalse =>
        have h' := setVolume_mem_volumeTail h
        repeat' split at h'
        all_goals simp_all
    case isFalse =>
      have h' := setVolume_mem_volumeTail h
      simp_all

/-- Full characterisation of the close loop when every live process
reports a name: no exception escapes, the killed flag is "some process
matched and was not access-denied", and the trace terminates exactly the
matched, non-denied processes in iteration order. -/
lemma closeLoop_spec (a : String) (procs : List Proc)
    (h : procs.all (fun pr => pr.name.isSome) = true) :
    closeLoop a procs =
      (none, procs.any (procMatches a),
       (procs.filter (procMatches a)).map
         (fun pr => Effect.terminate (pr.name.getD ""))) := by
  induction procs with
  | nil => rfl
  | cons pr rest ih =>
    simp only [List.all_cons, Bool.and_eq_true] at h
    obtain ⟨hn, hrest⟩ := h
    have ihr := ih hrest
    cases hpr : pr.name with
    | none => rw [hpr] at hn; simp at hn
    | some n =>
      by_cases hd : pr.denied
      · by_cases hc : strContains (strLower n) a
        all_goals simp [closeLoop, hpr, hd, hc, procMatches, ihr,
          List.filter_cons, List.any_cons]
      · by_cases hc : strContains (strLower n) a
        all_goals simp [closeLoop, hpr, hd, hc, procMatches, ihr,
          List.filter_cons, List.any_cons]

/-- In an association list with pairwise-distinct keys, `find?` on the key
of a member returns exactly that member. -/
lemma find?_eq_of_nodup_keys (l : List (String × String)) (k : String)
    (x : String × String) (hnd : (l.map Prod.fst).Nodup) (hx : x ∈ l)
    (hk : x.1 = k) : l.find? (fun e => e.1 == k) = some x := by
  induction l with
  | nil => simp at hx
  | cons h t ih =>
    simp only [List.map_cons, List.nodup_cons] at hnd
    obtain ⟨hh, ht⟩ := hnd
    rcases List.mem_cons.mp hx with rfl | hxt
    · rw [List.find?_cons_of_pos _ (by simp [hk])]
    · have hne : h.1 ≠ k := by
        intro e
        apply hh
        have hm : x.1 ∈ List.map Prod.fst t := List.mem_map_of_mem Prod.fst hxt
        rw [hk] at hm
        rw [e]
        exact hm
      rw [List.find?_cons_of_neg _ (by simp [hne])]
      exact ih ht hxt

/-! ## Claim C1 — the filename validator -/

/-- Claim C1 fails as stated: the empty string contains no `..`, no leading
`/` and none of the seven shell metacharacters, yet `_validate_filename`
rejects it (the `if not filename` guard at line 63). -/
theorem C1_counterexample :
    strContains "" ".." = false ∧ strStartsWith "" "/" = false ∧
    badChars.any (fun c => strContainsChar "" c) = false ∧
    validate_filename "" = false := by decide

/-- Claim C1 (amended): the validator rejects the empty string; a
non-empty filename is accepted exactly when it does not contain `..`, does
not start with `/`, and contains none of the seven shell metacharacters. -/
theorem C1_amended :
    validate_filename "" = false ∧
    ∀ f : String, f ≠ "" →
      validate_filename f =
        (!strContains f ".." && !strStartsWith f "/" &&
         !(badChars.any (fun c => strContainsChar f c))) := by
  refine ⟨by decide, ?_⟩
  intro f hf
  cases h1 : strContains f ".." <;> cases h2 : strStartsWith f "/" <;>
    cases h3 : badChars.any (fun c => strContainsChar f c) <;>
      simp [validate_filename, hf, h1, h2, h3]

theorem C1_amended_witness :
    (("notes.txt" : String) ≠ "") ∧
    validate_filename "notes.txt" =
      (!strContains "notes.txt" ".." && !strStartsWith "notes.txt" "/" &&
       !(badChars.any (fun c => strContainsChar "notes.txt" c))) :=
  ⟨by decide, C1_amended.2 "notes.txt" (by decide)⟩

/-! ## Claim C2 — validation before execution -/

/-- Claim C2 fails as stated: `web.open_website` reaches its OS call
(`webbrowser.open`) and succeeds although no parameter validator ran — the
validator is invoked only inside the file handler, not before every
category handler. -/
theorem C2_counterexample :
    hasValidate (execute baseEnv (.cmd cmdC2)).2 = false ∧
    hasOSCall (execute baseEnv (.cmd cmdC2)).2 = true ∧
    (execute baseEnv (.cmd cmdC2)).1 = .ok true := by decide

/-- Claim C2 (amended): for every file-category command, the executor runs
the filename validator before anything else (the trace begins with the
validation event), and when validation fails it returns a failure result
with no OS call performed. -/
theorem C2_amended (env : Env) (intent : Option String) (p : Params) :
    (∃ rest, (execute env (.cmd ⟨some "file", intent, p⟩)).2 =
      Effect.validate (p.filename.getD "") (validate_filename (p.filename.getD "")) :: rest)
    ∧ (validate_filename (p.filename.getD "") = false →
        (execute env (.cmd ⟨some "file", intent, p⟩)).1 = .ok false
        ∧ hasOSCall (execute env (.cmd ⟨some "file", intent, p⟩)).2 = false) := by
  rw [execute_file_cmd]
  by_cases hv : validate_filename (p.filename.getD "") = true
  · constructor
    · unfold execute_file
      dsimp only
      rw [if_pos hv, hv]
      repeat' split
      all_goals exact ⟨_, rfl⟩
    · intro hfalse
      rw [hv] at hfalse
      exact absurd hfalse (by decide)
  · have hv' : validate_filename (p.filename.getD "") = false := by
      cases h : validate_filename (p.filename.getD "")
      · rfl
      · exact absurd h hv
    constructor
    · unfold execute_file
      dsimp only
      rw [if_neg (by rw [hv']; exact Bool.false_ne_true), hv']
      exact ⟨_, rfl⟩
    · intro _
      unfold execute_file
      dsimp only
      rw [if_neg (by rw [hv']; exact Bool.false_ne_true)]
      refine ⟨rfl, ?_⟩
      cases env.tts <;> simp [hasOSCall, speakIf, isOSCall]

theorem C2_amended_witness :
    (execute baseEnv (.cmd ⟨some "file", some "open_file", {}⟩)).1 = .ok false :=
  (C2_amended baseEnv (some "open_file") {}).2 (by decide) |>.1

/-! ## Claim C3 — total, exception-free execution -/

/-- Claim C3: for every input (None, the empty mapping, unknown categories,
unknown intents), `execute` returns exactly one boolean result and never
lets a raw exception reach the caller: even when a handler raises (e.g. the
close loop hitting a nameless process), the catch-all converts it. -/
theorem C3_no_raw_exception (env : Env) (input : CmdInput) :
    ∃ b : Bool, (execute env input).1 = Outcome.ok b := by
  cases input with
  | null => exact ⟨false, rfl⟩
  | emptyDict => exact ⟨false, rfl⟩
  | cmd c =>
    unfold execute
    rcases hd : dispatch env c with ⟨o, effs⟩
    cases o with
    | ok b => exact ⟨b, by simp only [execute, hd]⟩
    | exn e => exact ⟨false, by simp only [execute, hd]⟩

/-! ## Claim C4 — volume clamping -/

/-- Claim C4 fails as stated: on macOS with current volume 50,
`volume_up` with delta −200 sets the absolute level to
`min(100, 50 + (−200)) = −150`, outside `[0,100]` — the lower clamp exists
only in the `volume_down` branch and vice versa. -/
theorem C4_counterexample :
    execute envC4 (.cmd cmdC4) = (.ok true, [Effect.setVolume (-150)]) ∧
    ((-150 : Int) < 0) := by decide

/-- Claim C4 (amended): for every initial volume in `[0,100]` and every
**non-negative** delta, any absolute volume level the volume handler sets
lies in `[0,100]` (the delta itself is not clamped, only the resulting
level; on platforms other than macOS no absolute level is ever set by this
code). -/
theorem C4_amended (env : Env) (intent : Option String) (p : Params)
    (h0 : 0 ≤ env.currentVolume) (h1 : env.currentVolume ≤ 100)
    (h2 : 0 ≤ p.amount.getD 10) :
    ∀ v : Int, Effect.setVolume v ∈ (execute env (.cmd ⟨some "volume", intent, p⟩)).2 →
      0 ≤ v ∧ v ≤ 100 := by
  intro v hv
  rw [execute_volume_cmd] at hv
  rcases setVolume_mem_execute_volume hv with rfl | rfl
  · exact ⟨le_min (by norm_num) (by omega), min_le_left _ _⟩
  · exact ⟨le_max_left _ _, max_le (by norm_num) (by omega)⟩

theorem C4_amended_witness : (0 : Int) ≤ 100 ∧ (100 : Int) ≤ 100 :=
  C4_amended envC4w (some "volume_up") { amount := some 95 }
    (by decide) (by decide) (by decide) 100 (by decide)

/-! ## Claim C5 — volume on unsupported platforms -/

/-- Claim C5 is violated by the code (code bug): on a platform that is
neither Windows nor macOS, `volume.volume_up` performs no OS call at all
and returns success with the feedback "Volume volume up" — a silent no-op
success — instead of a Result stating that volume control is unavailable
(that message exists only in the handler's exception path, line 591). -/
theorem C5_theorem :
    baseEnv.platform ≠ "Windows" ∧ baseEnv.platform ≠ "Darwin" ∧
    execute baseEnv (.cmd cmdC5) = (.ok true, [Effect.speak "Volume volume up"]) ∧
    hasOSCall (execute baseEnv (.cmd cmdC5)).2 = false := by decide

/-! ## Claim C6 — deleting a non-existent file -/

/-- Claim C6: `file.delete_file` on a valid filename that names no existing
file returns failure with the "File not found" feedback, raises nothing,
and the trace leaves the filesystem unchanged. -/
theorem C6_theorem (env : Env) (p : Params) (f : String)
    (hf : p.filename = some f) (hv : validate_filename f = true)
    (hex : env.fs.contains f = false) :
    execute env (.cmd ⟨some "file", some "delete_file", p⟩) =
      (.ok false, [Effect.validate f true] ++ speakIf env.tts "File not found")
    ∧ applyFs (execute env (.cmd ⟨some "file", some "delete_file", p⟩)).2 env.fs = env.fs := by
  have hne : f ≠ "" := by
    intro h
    rw [h] at hv
    exact absurd hv (by decide)
  have heq : execute env (.cmd ⟨some "file", some "delete_file", p⟩) =
      (.ok false, [Effect.validate f true] ++ speakIf env.tts "File not found") := by
    rw [execute_file_cmd]
    unfold execute_file
    dsimp only
    rw [hf]
    simp only [Option.getD_some]
    rw [if_pos hv]
    simp only [Option.some.injEq, String.reduceEq, if_false, reduceIte]
    rw [if_neg hne, hex]
    simp
  exact ⟨heq, by rw [heq]; cases env.tts <;> simp [applyFs, speakIf]⟩

theorem C6_witness :
    execute envC6 (.cmd ⟨some "file", some "delete_file", { filename := some "ghost.txt" }⟩) =
      (.ok false, [Effect.validate "ghost.txt" true] ++ speakIf envC6.tts "File not found")
    ∧ applyFs (execute envC6
        (.cmd ⟨some "file", some "delete_file", { filename := some "ghost.txt" }⟩)).2 envC6.fs
        = envC6.fs :=
  C6_theorem envC6 { filename := some "ghost.txt" } "ghost.txt" rfl (by decide) (by decide)

/-! ## Claim C7 — closing applications -/

/-- Claim C7 fails as stated: a live process named "chrome" matches
app_name "chrome" as a substring, yet when its `terminate()` raises
`AccessDenied` the loop swallows the exception, `killed` stays false, and
close returns failure with the "not running" message — so "success if at
least one matched" is false of the code. -/
theorem C7_counterexample :
    strContains (strLower "chrome") "chrome" = true ∧
    execute envC7 (.cmd ⟨some "application", some "close", pC7⟩) =
      (.ok false, [Effect.speak "chrome is not running"]) := by decide

/-- Claim C7 (amended): with a non-empty app_name and every live process
reporting a name, `application.close` sends a graceful terminate (never a
force kill) to exactly the processes whose lowercased name contains
app_name and whose terminate is not access-denied; it succeeds iff at least
one such process existed, and with no match it performs no process side
effect and returns failure with the consistent "is not running" message, so
the no-match case is idempotent. -/
theorem C7_amended (env : Env) (p : Params)
    (ha : strLower (p.app_name.getD "") ≠ "")
    (hnames : env.processes.all (fun pr => pr.name.isSome) = true) :
    execute env (.cmd ⟨some "application", some "close", p⟩) =
      (.ok (env.processes.any (procMatches (strLower (p.app_name.getD "")))),
       (env.processes.filter (procMatches (strLower (p.app_name.getD "")))).map
         (fun pr => Effect.terminate (pr.name.getD "")) ++
       speakIf env.tts
         (if env.processes.any (procMatches (strLower (p.app_name.getD ""))) then
            "Closed " ++ strLower (p.app_name.getD "")
          else strLower (p.app_name.getD "") ++ " is not running")) := by
  have hd : dispatch env ⟨some "application", some "close", p⟩ =
      execute_application env (some "close") p := dispatch_application env (some "close") p
  have happ : execute_application env (some "close") p =
      (.ok (env.processes.any (procMatches (strLower (p.app_name.getD "")))),
       (env.processes.filter (procMatches (strLower (p.app_name.getD "")))).map
         (fun pr => Effect.terminate (pr.name.getD "")) ++
       speakIf env.tts
         (if env.processes.any (procMatches (strLower (p.app_name.getD ""))) then
            "Closed " ++ strLower (p.app_name.getD "")
          else strLower (p.app_name.getD "") ++ " is not running")) := by
    unfold execute_application
    dsimp only
    simp only [Option.some.injEq, String.reduceEq, if_false, reduceIte]
    rw [if_neg ha, closeLoop_spec _ _ hnames]
    cases hk : env.processes.any (procMatches (strLower (p.app_name.getD ""))) <;> simp
  exact (execute_eq_of_ok (by rw [hd, happ]))

theorem C7_amended_witness :
    execute envC7w (.cmd ⟨some "application", some "close", pC7w⟩) =
      (.ok true, [Effect.terminate "Firefox", Effect.speak "Closed fire"]) := by
  have h := C7_amended envC7w pC7w (by decide) (by decide)
  exact h.trans (by decide)

/-! ## Claim C8 — list_files -/

/-- Claim C8 is violated by the code (code bug): `file.list_files` carries
no filename, so the unconditional filename validation at the top of the
file handler rejects the default empty string and the command fails with
"Invalid filename" — the counting branch is never reached, no count is
spoken and nothing is logged. -/
theorem C8_theorem :
    execute envC8 (.cmd cmdC8) =
      (.ok false, [Effect.validate "" false, Effect.speak "Invalid filename"]) ∧
    (execute envC8 (.cmd cmdC8)).2.all (fun e => !isOSCall e) = true ∧
    (execute envC8 (.cmd cmdC8)).2.all
      (fun e => e != Effect.speak "Found 2 files") = true := by decide

/-! ## Claim C9 — App Registry round-trip -/

/-- Claim C9: loading an App Registry whose lowercased names are pairwise
distinct and looking each entry up by its declared name (the lookup
lowercases the query exactly as the registry construction lowercases keys)
yields exactly the path the entry was constructed with. -/
theorem C9_theorem (apps : List (String × String))
    (hnd : (apps.map (fun e => strLower e.1)).Nodup) :
    ∀ e ∈ apps, appLookup (load_app_paths apps) e.1 = some e.2 := by
  intro e he
  unfold appLookup dictLookup load_app_paths
  have hx : (strLower e.1, e.2) ∈ (apps.map (fun e => (strLower e.1, e.2))).reverse :=
    List.mem_reverse.mpr (List.mem_map_of_mem _ he)
  have hnd' : (((apps.map (fun e => (strLower e.1, e.2))).reverse).map Prod.fst).Nodup := by
    rw [List.map_reverse, List.nodup_reverse, List.map_map]
    simpa [Function.comp] using hnd
  rw [find?_eq_of_nodup_keys _ (strLower e.1) (strLower e.1, e.2) hnd' hx rfl]
  rfl

theorem C9_witness :
    appLookup (load_app_paths appsC9) "Chrome" = some "/usr/bin/google-chrome" :=
  C9_theorem appsC9 (by decide) ("Chrome", "/usr/bin/google-chrome") (by decide)

/-! ## Claim C10 — empty filenames short-circuit every file intent -/

/-- Claim C10: the validator rejects the empty string, so every
file-category command whose filename is missing or empty fails at the
validation step with the same result whatever the intent is — in
particular the per-intent "Please specify filename" branches can never
speak. -/
theorem C10_theorem (env : Env) (intent : Option String) (p : Params)
    (h : p.filename.getD "" = "") :
    validate_filename "" = false ∧
    execute env (.cmd ⟨some "file", intent, p⟩) =
      (.ok false, Effect.validate "" false :: speakIf env.tts "Invalid filename") ∧
    (execute env (.cmd ⟨some "file", intent, p⟩)).2.all
      (fun e => e != Effect.speak "Please specify filename") = true := by
  have heq : execute env (.cmd ⟨some "file", intent, p⟩) =
      (.ok false, Effect.validate "" false :: speakIf env.tts "Invalid filename") := by
    rw [execute_file_cmd]
    unfold execute_file
    dsimp only
    rw [h, if_neg (by decide : ¬ (validate_filename "" = true))]
  refine ⟨by decide, heq, ?_⟩
  rw [heq]
  cases env.tts <;> simp [speakIf]

theorem C10_witness :
    execute baseEnv (.cmd ⟨some "file", some "list_files", {}⟩) =
      (.ok false, Effect.validate "" false :: speakIf baseEnv.tts "Invalid filename") :=
  (C10_theorem baseEnv (some "list_files") {} (by decide)).2.1

end EchoOS
